import Mathlib

/-! Verification development for the Temple Wallet extension messaging core.

The definitions below are a shallow embedding of the TypeScript sources:
- `src/lib/intercom/server.ts` (`IntercomServer`: request multiplexing and
  broadcast),
- `src/lib/temple/back/pndops.ts` (pending-operations storage),
- `src/lib/thanos/back.ts` (`processRequest` dispatcher),
- the front-end client module (`useTempleClient`, `TaquitoWallet`,
  `TempleSigner`).

JavaScript dynamic values are modelled by the inductive `JSVal`; fallible
JS code is modelled with `Except`/explicit outcome records; JS objects are
association lists of fields.
-/

/-- A JavaScript runtime value, as far as the messaging core inspects one:
`null`, `undefined`, booleans, numbers, strings and plain objects (a list of
named fields). -/
inductive JSVal where
  | vNull : JSVal
  | vUndefined : JSVal
  | vBool : Bool → JSVal
  | vNum : Int → JSVal
  | vStr : String → JSVal
  | vObj : List (String × JSVal) → JSVal
deriving Repr

/-- `v` is a (non-null) JavaScript object. Only objects may stand on the
right of the `in` operator. -/
def JSVal.isObject : JSVal → Bool
  | .vObj _ => true
  | _ => false

/-- `v` is the JavaScript value `undefined`. -/
def JSVal.isUndefined : JSVal → Bool
  | .vUndefined => true
  | _ => false

/-- JavaScript's `prop in v`: looks the property up when `v` is an object
and throws a `TypeError` (modelled as `Except.error ()`) otherwise, exactly
as ECMAScript specifies for the `in` operator on a non-object operand. -/
def jsIn (prop : String) : JSVal → Except Unit Bool
  | .vObj fields => .ok (fields.any (fun f => f.1 == prop))
  | _ => .error ()

/-- Property access `v.prop` on an object; absent fields read as
`undefined`. (The multiplexer only reads `err.message` after a successful
`"message" in err` test, so the object case is the only one it reaches.) -/
def jsGet (prop : String) : JSVal → JSVal
  | .vObj fields => (fields.find? (fun f => f.1 == prop)).elim .vUndefined (·.2)
  | v => v

/-- A convenience constructor for the value `new Error(msg)` as the
multiplexer observes it: an object carrying a `message` field. -/
def errorObj (msg : String) : JSVal :=
  .vObj [("message", .vStr msg)]

/-! Intercom server (`src/lib/intercom/server.ts`) -/

/-- `DEFAULT_ERROR_MESSAGE` from `server.ts`. -/
def DEFAULT_ERROR_MESSAGE : String := "Unexpected error occured"

/-- The outcome of awaiting one registered request handler: it either
resolves with a value (`undefined` meaning "not applicable") or rejects
with a thrown value. -/
inductive HandlerOut where
  | ret : JSVal → HandlerOut
  | thrown : JSVal → HandlerOut
deriving Repr

/-- A registered request handler, as a function of the request payload. -/
def ReqHandler : Type := JSVal → HandlerOut

/-- An outbound wire envelope: `ResponseMessage`, `ErrorMessage` or
`SubscriptionMessage` from `intercom/types`. -/
inductive Envelope where
  | res : String → JSVal → Envelope
  | err : String → JSVal → Envelope
  | sub : JSVal → Envelope
deriving Repr

/-- What one inbound request produced: the envelopes posted back on the
originating port, how many of the registered handlers were invoked (always
a prefix of the registration order, since the `for…of` loop walks them
front to back), and the value, if any, that escaped the `try`/`catch` of
`handleMessage` and became an unhandled rejection of its async body. -/
structure DispatchResult where
  sent : List Envelope
  invoked : Nat
  escaped : Option JSVal
deriving Repr

/-- The `for (const handler of this.reqHandlers) … try/catch` body of
`IntercomServer.handleMessage`: walk the handlers in registration order;
the first defined (`!== undefined`) result is sent back as a `Res` envelope
and the loop breaks; a thrown value `e` is caught, and the catch block
posts an `Err` envelope whose data is `e.message` when `"message" in e`
holds and `DEFAULT_ERROR_MESSAGE` when the test is false — but when `e` is
not an object the `in` operator itself throws a `TypeError`, which escapes
the catch block, so nothing is posted and the rejection escapes. -/
def runHandlers (reqId : String) (payload : JSVal) : List ReqHandler → DispatchResult
  | [] => ⟨[], 0, none⟩
  | h :: rest =>
    match h payload with
    | .ret v =>
      if v.isUndefined then
        let r := runHandlers reqId payload rest
        ⟨r.sent, r.invoked + 1, r.escaped⟩
      else
        ⟨[.res reqId v], 1, none⟩
    | .thrown e =>
      match jsIn "message" e with
      | .error () => ⟨[], 1, some e⟩
      | .ok true => ⟨[.err reqId (jsGet "message" e)], 1, none⟩
      | .ok false => ⟨[.err reqId (.vStr DEFAULT_ERROR_MESSAGE)], 1, none⟩

/-- An inbound `RequestMessage`: `{type: Req, reqId, data}`. -/
structure RequestMessage where
  reqId : String
  data : JSVal

/-- `IntercomServer.handleMessage` on a message that carries the `Req`
tag: dispatch the payload through the registered handler chain. -/
def handleMessage (handlers : List ReqHandler) (msg : RequestMessage) : DispatchResult :=
  runHandlers msg.reqId msg.data handlers

/-- A connected port of the transport registry. `pid` is the port's
identity; `failsOnPost` models a port whose `postMessage` throws (for
example, one whose other end has gone away). -/
structure Port where
  pid : Nat
  failsOnPost : Bool

/-- `IntercomServer.broadcast`: wrap `data` in a `Sub` envelope and
`forEach` over the registered ports, posting it to each. The iteration has
no `try`/`catch`, so a throwing `postMessage` propagates out of `forEach`
and ends the iteration: the result is the list of `(pid, envelope)`
deliveries that happened, in registration order, together with whether an
exception escaped `broadcast`. -/
def broadcast (data : JSVal) : List Port → List (Nat × Envelope) × Bool
  | [] => ([], false)
  | p :: rest =>
    if p.failsOnPost then
      ([], true)
    else
      let r := broadcast data rest
      ((p.pid, .sub data) :: r.1, r.2)

/-! Pending operations (`src/lib/temple/back/pndops.ts`) -/

/-- A `TemplePendingOperation`: the spread fields of an
`OperationContentsAndResult` (kept abstract in `opResult`) together with the
operation-group `hash` and the `addedAt` timestamp string. -/
structure TemplePendingOperation where
  opResult : JSVal
  hash : String
  addedAt : String

/-- `browser.storage.local` as the pndops module touches it: a map from
storage keys to the stored operation list, absent keys reading back as
`undefined`. -/
def PndStore : Type := String → Option (List TemplePendingOperation)

/-- `getKey` from `pndops.ts`: `` `pndops_${netId}_${accPkh}` ``. -/
def getKey (accPkh netId : String) : String :=
  "pndops_" ++ netId ++ "_" ++ accPkh

/-- `getAll`: read the stored list under the pair's key, with `|| []`
turning an absent value into the empty list. -/
def getAll (accPkh netId : String) (store : PndStore) : List TemplePendingOperation :=
  (store (getKey accPkh netId)).getD []

/-- `set`: overwrite the pair's key with `ops` (the concurrency-1 write
queue only sequences writes; its effect on the store is this update). -/
def setOps (accPkh netId : String) (ops : List TemplePendingOperation)
    (store : PndStore) : PndStore :=
  fun k => if k = getKey accPkh netId then some ops else store k

/-- `append`: prepend the new operations to the current list
(`[...ops, ...currentItems]`) and write it back. -/
def append (accPkh netId : String) (ops : List TemplePendingOperation)
    (store : PndStore) : PndStore :=
  setOps accPkh netId (ops ++ getAll accPkh netId store) store

/-- `remove`: drop every stored operation whose `hash` is among
`opHashes` and write the rest back. -/
def removeOps (accPkh netId : String) (opHashes : List String)
    (store : PndStore) : PndStore :=
  setOps accPkh netId
    ((getAll accPkh netId store).filter (fun op => !(opHashes.contains op.hash)))
    store

/-! Thanos back-end dispatcher (`src/lib/thanos/back.ts`) -/

/-- The request variants of the wire catalogue. The first eleven are the
tags `processRequest` switches on in `back.ts`; the remaining tags complete
the spec's §6 catalogue. The enumeration itself lives in
`lib/thanos/types`, which is not among the provided sources; those
constructors are modelled from the spec: the §6 catalogue entry names and
request fields. -/
inductive ThanosRequest where
  | getStateRequest : ThanosRequest
  | newWalletRequest : String → Option String → ThanosRequest
  | unlockRequest : String → ThanosRequest
  | lockRequest : ThanosRequest
  | createAccountRequest : Option String → ThanosRequest
  | revealPrivateKeyRequest : Nat → String → ThanosRequest
  | revealMnemonicRequest : String → ThanosRequest
  | editAccountRequest : Nat → String → ThanosRequest
  | importAccountRequest : String → Option String → ThanosRequest
  | importFundraiserAccountRequest : String → String → String → ThanosRequest
  | signRequest : Nat → String → Option String → ThanosRequest
  | importMnemonicAccountRequest : String → Option String → Option String → ThanosRequest
  | importManagedAccountRequest : String → String → String → ThanosRequest
  | importWatchOnlyAccountRequest : String → Option String → ThanosRequest
  | createLedgerAccountRequest : String → Option String → ThanosRequest
  | updateSettingsRequest : JSVal → ThanosRequest
  | getPendingOpsRequest : String → String → ThanosRequest
  | removePendingOpsRequest : String → String → List String → ThanosRequest
  | confirmRequest : String → Bool → ThanosRequest
  | getConfirmationPayloadRequest : String → ThanosRequest
  | revealPublicKeyRequest : String → ThanosRequest
  | submitOperationsRequest : String → String → String → List JSVal → ThanosRequest
  | getDAppSessionsRequest : ThanosRequest
  | removeDAppSessionRequest : String → ThanosRequest

/-- The response variants produced by the `processRequest` branches of
`back.ts`. -/
inductive ThanosResponse where
  | getStateResponse : JSVal → ThanosResponse
  | newWalletResponse : ThanosResponse
  | unlockResponse : ThanosResponse
  | lockResponse : ThanosResponse
  | createAccountResponse : ThanosResponse
  | revealPrivateKeyResponse : String → ThanosResponse
  | revealMnemonicResponse : String → ThanosResponse
  | editAccountResponse : ThanosResponse
  | importAccountResponse : ThanosResponse
  | importFundraiserAccountResponse : ThanosResponse
  | signResponse : JSVal → ThanosResponse

/-- The results the `Actions` module hands back to the dispatcher when an
action completes: the front state snapshot, revealed keys and mnemonics,
and signature results. (The `Actions` implementation is an external
collaborator of the dispatcher; only its successful results reach the
response construction in `processRequest`.) -/
structure BackActions where
  frontState : JSVal
  privateKeyOf : Nat → String → String
  mnemonicOf : String → String
  signResult : Nat → String → Option String → JSVal

/-- The `switch (req.type)` of `processRequest` in `back.ts`: each of the
eleven handled tags runs its action and returns the paired response; every
other tag falls through the switch, so the function resolves with
`undefined` (`none`). -/
def processRequest (a : BackActions) : ThanosRequest → Option ThanosResponse
  | .getStateRequest => some (.getStateResponse a.frontState)
  | .newWalletRequest _ _ => some .newWalletResponse
  | .unlockRequest _ => some .unlockResponse
  | .lockRequest => some .lockResponse
  | .createAccountRequest _ => some .createAccountResponse
  | .revealPrivateKeyRequest i pw => some (.revealPrivateKeyResponse (a.privateKeyOf i pw))
  | .revealMnemonicRequest pw => some (.revealMnemonicResponse (a.mnemonicOf pw))
  | .editAccountRequest _ _ => some .editAccountResponse
  | .importAccountRequest _ _ => some .importAccountResponse
  | .importFundraiserAccountRequest _ _ _ => some .importFundraiserAccountResponse
  | .signRequest i bytes wm => some (.signResponse (a.signResult i bytes wm))
  | _ => none

/-- The eleven request tags for which `processRequest` has a dispatch
branch. -/
def handledByBack : ThanosRequest → Bool
  | .getStateRequest => true
  | .newWalletRequest _ _ => true
  | .unlockRequest _ => true
  | .lockRequest => true
  | .createAccountRequest _ => true
  | .revealPrivateKeyRequest _ _ => true
  | .revealMnemonicRequest _ => true
  | .editAccountRequest _ _ => true
  | .importAccountRequest _ _ => true
  | .importFundraiserAccountRequest _ _ _ => true
  | .signRequest _ _ _ => true
  | _ => false

/-! Front-end temple client (`useTempleClient`, `TempleSigner`,
`TaquitoWallet`) -/

/-- Confirmation ids are opaque unique strings produced by `nanoid()`;
the model draws them from a counter, so the id of a call is the counter
value at the call and each call leaves the counter incremented. -/
def nanoid (counter : Nat) : Nat × Nat :=
  (counter, counter + 1)

/-- The notifications the `intercom.subscribe` effect of `useTempleClient`
switches on: `StateUpdated`, `ConfirmationRequested{id, payload}` and
`ConfirmationExpired{id}`. -/
inductive TempleNotification where
  | stateUpdated : TempleNotification
  | confirmationRequested : Nat → JSVal → TempleNotification
  | confirmationExpired : Nat → TempleNotification

/-- The client-side confirmation state of `useTempleClient`:
`confirmationIdRef.current` (set by the signer/wallet `onBefore*`
callbacks, `null` when no interactive call is outstanding), the
`confirmation` React state (the `{id, payload}` record shown to the user),
and a count of `revalidate()` calls triggered by `StateUpdated`. -/
structure ClientState where
  confirmationIdRef : Option Nat
  confirmation : Option (Nat × JSVal)
  revalidations : Nat

/-- `resetConfirmation`: null the id ref and clear the confirmation
state. -/
def resetConfirmation (s : ClientState) : ClientState :=
  { s with confirmationIdRef := none, confirmation := none }

/-- The subscription callback of `useTempleClient`: revalidate on
`StateUpdated`; on `ConfirmationRequested` store `{id, payload}` only when
`msg.id === confirmationIdRef.current`; on `ConfirmationExpired` reset the
confirmation only under the same id match; otherwise fall through with no
effect. -/
def handleNotification (msg : TempleNotification) (s : ClientState) : ClientState :=
  match msg with
  | .stateUpdated => { s with revalidations := s.revalidations + 1 }
  | .confirmationRequested id payload =>
    if s.confirmationIdRef = some id then
      { s with confirmation := some (id, payload) }
    else s
  | .confirmationExpired id =>
    if s.confirmationIdRef = some id then resetConfirmation s else s

/-- A `TempleSigner` instance: the account's public key hash and whether an
`onBeforeSign` callback was supplied to the constructor. -/
structure TempleSigner where
  pkh : String
  hasOnBeforeSign : Bool

/-- A `TaquitoWallet` instance: source public key hash, network RPC, and
whether `opts.onBeforeSend` was supplied. -/
structure TaquitoWallet where
  pkh : String
  rpc : String
  hasOnBeforeSend : Bool

/-- The requests the signer/wallet adapters transmit over the intercom for
their interactive calls. -/
inductive TempleRequestMsg where
  | signReq : (sourcePkh : String) → (id : Nat) → (bytes : String) →
      (watermark : Option String) → TempleRequestMsg
  | operationsReq : (id : Nat) → (sourcePkh : String) → (networkRpc : String) →
      (opParams : List JSVal) → TempleRequestMsg

/-- The `id` field carried by an adapter request. -/
def TempleRequestMsg.idOf : TempleRequestMsg → Nat
  | .signReq _ id _ _ => id
  | .operationsReq id _ _ _ => id

/-- The externally observable steps of one adapter call, in order: the
`onBeforeSign`/`onBeforeSend` callback firing with a confirmation id, and
the request envelope being transmitted. -/
inductive ClientEvent where
  | beforeCallback : Nat → ClientEvent
  | requestSent : TempleRequestMsg → ClientEvent

/-- `TempleSigner.sign`: draw a fresh id from `nanoid`, invoke
`onBeforeSign(id)` when the callback was supplied, then transmit the
`SignRequest` carrying the same `id` and await it. Returns the ordered
event trace and the advanced id counter. -/
def TempleSigner.sign (s : TempleSigner) (bytes : String) (watermark : Option String)
    (counter : Nat) : List ClientEvent × Nat :=
  let (id, counter') := nanoid counter
  let callbackEvents := if s.hasOnBeforeSign then [ClientEvent.beforeCallback id] else []
  (callbackEvents ++ [ClientEvent.requestSent (.signReq s.pkh id bytes watermark)], counter')

/-- `TaquitoWallet.sendOperations`: draw a fresh id from `nanoid`, invoke
`opts.onBeforeSend(id)` when supplied, then transmit the
`OperationsRequest` carrying the same `id` and await it. -/
def TaquitoWallet.sendOperations (w : TaquitoWallet) (opParams : List JSVal)
    (counter : Nat) : List ClientEvent × Nat :=
  let (id, counter') := nanoid counter
  let callbackEvents := if w.hasOnBeforeSend then [ClientEvent.beforeCallback id] else []
  (callbackEvents ++ [ClientEvent.requestSent (.operationsReq id w.pkh w.rpc opParams)], counter')

/-- `TempleSigner.secretKey`: unconditionally
`throw new Error("Secret key cannot be exposed")`. -/
def TempleSigner.secretKey (_ : TempleSigner) : Except JSVal String :=
  .error (errorObj "Secret key cannot be exposed")

/-! Helper lemmas about the multiplexer loop and the pndops store. -/

/-- Unfolding `runHandlers` past a handler that resolved with
`undefined`: the loop records the extra invocation and continues with the
remaining handlers. -/
theorem runHandlers_undefined_cons (reqId : String) (payload : JSVal)
    (g : ReqHandler) (hs : List ReqHandler) (hg : g payload = .ret .vUndefined) :
    runHandlers reqId payload (g :: hs) =
      ⟨(runHandlers reqId payload hs).sent,
       (runHandlers reqId payload hs).invoked + 1,
       (runHandlers reqId payload hs).escaped⟩ := by
  simp [runHandlers, hg, JSVal.isUndefined]

/-- Unfolding `runHandlers` at a handler that resolved with a defined
value: the loop responds and breaks. -/
theorem runHandlers_defined_cons (reqId : String) (payload : JSVal)
    (h : ReqHandler) (hs : List ReqHandler) (v : JSVal)
    (hh : h payload = .ret v) (hv : v.isUndefined = false) :
    runHandlers reqId payload (h :: hs) = ⟨[.res reqId v], 1, none⟩ := by
  simp [runHandlers, hh, hv]

/-- Unfolding `runHandlers` at a handler that rejected: the catch block
runs and the loop never resumes. -/
theorem runHandlers_thrown_cons (reqId : String) (payload : JSVal)
    (h : ReqHandler) (hs : List ReqHandler) (e : JSVal)
    (hh : h payload = .thrown e) :
    runHandlers reqId payload (h :: hs) =
      match jsIn "message" e with
      | .error () => ⟨[], 1, some e⟩
      | .ok true => ⟨[.err reqId (jsGet "message" e)], 1, none⟩
      | .ok false => ⟨[.err reqId (.vStr DEFAULT_ERROR_MESSAGE)], 1, none⟩ := by
  simp only [runHandlers, hh]

/-- Running the loop past a block of handlers that all resolved with
`undefined` only adds their count to the tally of invocations. -/
theorem runHandlers_append_undefined (reqId : String) (payload : JSVal)
    (pre : List ReqHandler) (hpre : ∀ g ∈ pre, g payload = .ret .vUndefined)
    (hs : List ReqHandler) :
    runHandlers reqId payload (pre ++ hs) =
      ⟨(runHandlers reqId payload hs).sent,
       pre.length + (runHandlers reqId payload hs).invoked,
       (runHandlers reqId payload hs).escaped⟩ := by
  induction pre with
  | nil => simp
  | cons g pre ih =>
    have hg : g payload = .ret .vUndefined := hpre g (by simp)
    rw [List.cons_append, runHandlers_undefined_cons reqId payload g _ hg,
      ih (fun q hq => hpre q (by simp [hq]))]
    simp
    omega

/-- Reading back the key just written by `setOps` yields exactly the
written list. -/
theorem getAll_setOps_same (accPkh netId : String)
    (ops : List TemplePendingOperation) (store : PndStore) :
    getAll accPkh netId (setOps accPkh netId ops store) = ops := by
  simp [getAll, setOps]

/-! Claim theorems. -/

/-- Claim C1 (code bug, evaluated at the failing input): when a handler
throws the primitive string `"boom"`, the multiplexer's catch block
evaluates `"message" in err`, which itself throws a `TypeError` on a
non-object operand; consequently NO Error envelope is posted back (the
`sent` list is empty) and the thrown value escapes the multiplexer's async
body as an unhandled rejection — contradicting the claim that every thrown
value yields exactly one Error envelope and that the multiplexer never
throws. -/
theorem handleMessage_thrown_string_sends_nothing :
    handleMessage [fun _ => .thrown (.vStr "boom")] ⟨"req-1", .vNull⟩ =
      ⟨[], 1, some (.vStr "boom")⟩ := rfl

/-- Counterexample to claim C2 as stated: with two registered ports of
which the first one's `postMessage` throws, `broadcast` delivers nothing at
all — in particular the second, healthy port never receives the
Subscription envelope, so a send failure on one channel does prevent
delivery to the remaining channels. -/
theorem broadcast_failure_blocks_remaining_port :
    broadcast .vNull [⟨0, true⟩, ⟨1, false⟩] = ([], true) := rfl

/-- Claim C2 (amended): `broadcast` posts the Subscription envelope to the
registered channels in registration order; when every `postMessage`
succeeds, every channel receives it, but a `postMessage` that throws ends
the iteration, the exception escapes `broadcast`, and the channels after
the failing one receive nothing. -/
theorem broadcast_all_ok_and_stops_at_failure :
    (∀ (d : JSVal) (ports : List Port),
        (∀ p ∈ ports, p.failsOnPost = false) →
        broadcast d ports = (ports.map (fun p => (p.pid, Envelope.sub d)), false)) ∧
    (∀ (d : JSVal) (pre : List Port) (p : Port) (rest : List Port),
        (∀ q ∈ pre, q.failsOnPost = false) → p.failsOnPost = true →
        broadcast d (pre ++ p :: rest) =
          (pre.map (fun q => (q.pid, Envelope.sub d)), true)) := by
  constructor
  · intro d ports hok
    induction ports with
    | nil => rfl
    | cons p ps ih =>
      have hp : p.failsOnPost = false := hok p (by simp)
      simp [broadcast, hp, ih (fun q hq => hok q (by simp [hq]))]
  · intro d pre p rest hok hp
    induction pre with
    | nil => simp [broadcast, hp]
    | cons q pre ih =>
      have hq : q.failsOnPost = false := hok q (by simp)
      simp [broadcast, hq, ih (fun r hr => hok r (by simp [hr]))]

/-- Witness for the amended claim C2, at three concrete ports with the
middle one failing: only the first port receives the envelope and the
exception escapes. -/
theorem broadcast_all_ok_and_stops_at_failure_witness :
    broadcast (.vStr "note") [⟨0, false⟩, ⟨1, true⟩, ⟨2, false⟩] =
      ([(0, .sub (.vStr "note"))], true) :=
  broadcast_all_ok_and_stops_at_failure.2 (.vStr "note") [⟨0, false⟩] ⟨1, true⟩
    [⟨2, false⟩] (by intro q hq; simp at hq; subst hq; rfl) rfl

/-- Claim C3: `TempleSigner.secretKey` fails on every instance and every
call, throwing `Error("Secret key cannot be exposed")`; it never succeeds
with secret material (its success projection is always `none`). -/
theorem secretKey_always_fails :
    ∀ s : TempleSigner,
      s.secretKey = .error (errorObj "Secret key cannot be exposed") ∧
      s.secretKey.toOption = none := by
  intro s
  exact ⟨rfl, rfl⟩

/-- Claim C4: the multiplexer calls the registered handlers in
registration order on the request payload (`invoked` counts the prefix of
the registration order that ran). First conjunct: if the handlers before
`h` all resolve with `undefined` and `h` resolves with a defined value
`v`, exactly one Response envelope carrying `v` and the originating reqId
is sent and no handler after `h` is invoked. Second conjunct: if every
handler resolves with `undefined`, no envelope at all is sent. -/
theorem first_defined_result_wins :
    (∀ (reqId : String) (payload : JSVal) (pre rest : List ReqHandler)
        (h : ReqHandler) (v : JSVal),
        (∀ g ∈ pre, g payload = .ret .vUndefined) →
        h payload = .ret v → v.isUndefined = false →
        handleMessage (pre ++ h :: rest) ⟨reqId, payload⟩ =
          ⟨[.res reqId v], pre.length + 1, none⟩) ∧
    (∀ (reqId : String) (payload : JSVal) (handlers : List ReqHandler),
        (∀ g ∈ handlers, g payload = .ret .vUndefined) →
        handleMessage handlers ⟨reqId, payload⟩ = ⟨[], handlers.length, none⟩) := by
  constructor
  · intro reqId payload pre rest h v hpre hh hv
    show runHandlers reqId payload (pre ++ h :: rest) = _
    rw [runHandlers_append_undefined reqId payload pre hpre,
      runHandlers_defined_cons reqId payload h rest v hh hv]
  · intro reqId payload handlers hpre
    show runHandlers reqId payload handlers = _
    have := runHandlers_append_undefined reqId payload handlers hpre []
    simpa [runHandlers] using this

/-- Witness for claim C4 at concrete handler chains: a three-handler chain
whose second handler is the first to produce a defined result responds
with exactly that result after two invocations, and a chain of two
always-`undefined` handlers sends nothing. -/
theorem first_defined_result_wins_witness :
    handleMessage
        [fun _ => .ret .vUndefined, fun _ => .ret (.vStr "hi"),
         fun _ => .ret (.vStr "later")] ⟨"r1", .vNull⟩ =
      ⟨[.res "r1" (.vStr "hi")], 2, none⟩ ∧
    handleMessage [fun _ => .ret .vUndefined, fun _ => .ret .vUndefined]
        ⟨"r2", .vNull⟩ = ⟨[], 2, none⟩ :=
  ⟨first_defined_result_wins.1 "r1" .vNull [fun _ => .ret .vUndefined]
      [fun _ => .ret (.vStr "later")] (fun _ => .ret (.vStr "hi")) (.vStr "hi")
      (by intro g hg; simp at hg; subst hg; rfl) rfl rfl,
    first_defined_result_wins.2 "r2" .vNull
      [fun _ => .ret .vUndefined, fun _ => .ret .vUndefined]
      (by intro g hg; simp at hg; subst hg; rfl)⟩

/-- Claim C5: on a pair key holding nothing yet, appending `[o1]` and then
`[o2]` and then removing `o1`'s hash leaves exactly `[o2]` stored under
the key (first conjunct; the distinct-hash hypothesis mirrors the claim).
Second conjunct: `append` prepends, so the freshly appended operations
head the stored sequence — newest first. -/
theorem pndops_append_remove_round_trip :
    (∀ (store : PndStore) (accPkh netId : String)
        (o1 o2 : TemplePendingOperation),
        getAll accPkh netId store = [] → o1.hash ≠ o2.hash →
        getAll accPkh netId
            (removeOps accPkh netId [o1.hash]
              (append accPkh netId [o2] (append accPkh netId [o1] store))) =
          [o2]) ∧
    (∀ (store : PndStore) (accPkh netId : String)
        (ops : List TemplePendingOperation),
        getAll accPkh netId (append accPkh netId ops store) =
          ops ++ getAll accPkh netId store) := by
  constructor
  · intro store accPkh netId o1 o2 hempty hne
    have h2 : getAll accPkh netId
        (append accPkh netId [o2] (append accPkh netId [o1] store)) = [o2, o1] := by
      simp [append, getAll_setOps_same, hempty]
    simp [removeOps, getAll_setOps_same, h2, List.contains, hne, Ne.symm hne]
  · intro store accPkh netId ops
    simp [append, getAll_setOps_same]

/-- Witness for claim C5 at a concrete empty store and two operations with
distinct hashes. -/
theorem pndops_append_remove_round_trip_witness :
    getAll "tz1aaa" "mainnet"
        (removeOps "tz1aaa" "mainnet" ["op1"]
          (append "tz1aaa" "mainnet" [⟨.vNull, "op2", "t2"⟩]
            (append "tz1aaa" "mainnet" [⟨.vNull, "op1", "t1"⟩] (fun _ => none)))) =
      [⟨.vNull, "op2", "t2"⟩] :=
  pndops_append_remove_round_trip.1 (fun _ => none) "tz1aaa" "mainnet"
    ⟨.vNull, "op1", "t1"⟩ ⟨.vNull, "op2", "t2"⟩ rfl (by decide)

/-- Counterexample to claim C6 as stated: `UpdateSettings` is in the
spec's catalogue, yet `processRequest` has no branch for it — the switch
falls through and no response is produced. -/
theorem processRequest_update_settings_unhandled :
    processRequest ⟨.vNull, fun _ _ => "", fun _ => "", fun _ _ _ => .vNull⟩
        (.updateSettingsRequest .vNull) = none := rfl

/-- Claim C6 (amended): `processRequest` dispatches exactly eleven of the
catalogue's request variants — GetState, NewWallet, Unlock, Lock,
CreateAccount, RevealPrivateKey, RevealMnemonic, EditAccount,
ImportAccount, ImportFundraiserAccount and Sign — each to its paired
response variant; every other catalogue variant falls through the switch
with no response. -/
theorem processRequest_dispatch_coverage :
    ∀ a : BackActions,
      (∀ req, (processRequest a req).isSome = handledByBack req) ∧
      processRequest a .getStateRequest = some (.getStateResponse a.frontState) ∧
      (∀ pw m, processRequest a (.newWalletRequest pw m) = some .newWalletResponse) ∧
      (∀ pw, processRequest a (.unlockRequest pw) = some .unlockResponse) ∧
      processRequest a .lockRequest = some .lockResponse ∧
      (∀ nm, processRequest a (.createAccountRequest nm) = some .createAccountResponse) ∧
      (∀ i pw, processRequest a (.revealPrivateKeyRequest i pw) =
        some (.revealPrivateKeyResponse (a.privateKeyOf i pw))) ∧
      (∀ pw, processRequest a (.revealMnemonicRequest pw) =
        some (.revealMnemonicResponse (a.mnemonicOf pw))) ∧
      (∀ i nm, processRequest a (.editAccountRequest i nm) = some .editAccountResponse) ∧
      (∀ k ep, processRequest a (.importAccountRequest k ep) = some .importAccountResponse) ∧
      (∀ em pw m, processRequest a (.importFundraiserAccountRequest em pw m) =
        some .importFundraiserAccountResponse) ∧
      (∀ i b w, processRequest a (.signRequest i b w) =
        some (.signResponse (a.signResult i b w))) := by
  intro a
  refine ⟨fun req => ?_, rfl, fun _ _ => rfl, fun _ => rfl, rfl, fun _ => rfl,
    fun _ _ => rfl, fun _ => rfl, fun _ _ => rfl, fun _ _ => rfl,
    fun _ _ _ => rfl, fun _ _ _ => rfl⟩
  cases req <;> rfl

/-- Claim C7: a `ConfirmationRequested` or `ConfirmationExpired`
notification whose id differs from the currently outstanding confirmation
id leaves the client's confirmation state (and everything else in the
hook's state) untouched. -/
theorem mismatched_confirmation_id_ignored :
    ∀ (s : ClientState) (id : Nat) (payload : JSVal),
      s.confirmationIdRef ≠ some id →
      handleNotification (.confirmationRequested id payload) s = s ∧
      handleNotification (.confirmationExpired id) s = s := by
  intro s id payload h
  constructor <;> simp [handleNotification, h]

/-- Witness for claim C7 at a concrete state with outstanding id 3 and a
foreign notification id 5. -/
theorem mismatched_confirmation_id_ignored_witness :
    handleNotification (.confirmationRequested 5 .vNull) ⟨some 3, none, 0⟩ =
      (⟨some 3, none, 0⟩ : ClientState) ∧
    handleNotification (.confirmationExpired 5) ⟨some 3, none, 0⟩ =
      (⟨some 3, none, 0⟩ : ClientState) :=
  mismatched_confirmation_id_ignored ⟨some 3, none, 0⟩ 5 .vNull (by decide)

/-- Claim C8: when the caller supplied the `onBeforeSign`/`onBeforeSend`
callback, both `TempleSigner.sign` and `TaquitoWallet.sendOperations`
draw a fresh id (the current counter value, with the counter advanced so
no later call repeats it), fire the callback with that id strictly before
transmitting, and the transmitted request's `id` field equals the id the
callback received. -/
theorem adapter_calls_notify_id_before_send :
    (∀ (s : TempleSigner) (bytes : String) (wm : Option String) (c : Nat),
        s.hasOnBeforeSign = true →
        s.sign bytes wm c =
          ([.beforeCallback c, .requestSent (.signReq s.pkh c bytes wm)], c + 1)) ∧
    (∀ (w : TaquitoWallet) (ops : List JSVal) (c : Nat),
        w.hasOnBeforeSend = true →
        w.sendOperations ops c =
          ([.beforeCallback c, .requestSent (.operationsReq c w.pkh w.rpc ops)],
            c + 1)) := by
  constructor
  · intro s bytes wm c h
    simp [TempleSigner.sign, nanoid, h]
  · intro w ops c h
    simp [TaquitoWallet.sendOperations, nanoid, h]

/-- Witness for claim C8 at concrete signer and wallet instances with the
callbacks supplied and counter 7. -/
theorem adapter_calls_notify_id_before_send_witness :
    TempleSigner.sign ⟨"tz1pkh", true⟩ "deadbeef" none 7 =
      ([.beforeCallback 7, .requestSent (.signReq "tz1pkh" 7 "deadbeef" none)], 8) ∧
    TaquitoWallet.sendOperations ⟨"tz1pkh", "https://rpc", true⟩ [] 7 =
      ([.beforeCallback 7, .requestSent (.operationsReq 7 "tz1pkh" "https://rpc" [])],
        8) :=
  ⟨adapter_calls_notify_id_before_send.1 ⟨"tz1pkh", true⟩ "deadbeef" none 7 rfl,
    adapter_calls_notify_id_before_send.2 ⟨"tz1pkh", "https://rpc", true⟩ [] 7 rfl⟩

/-- Counterexample to claim C9 as stated: with a first handler throwing
the primitive string `"fail"` and a second handler that would answer,
dispatch does not end with an Error envelope — nothing is sent at all,
because the catch block's `"message" in err` throws on a primitive. (The
second handler is indeed never invoked.) -/
theorem thrown_string_two_handlers_no_envelope :
    handleMessage [fun _ => .thrown (.vStr "fail"), fun _ => .ret (.vStr "answer")]
        ⟨"req-2", .vNull⟩ = ⟨[], 1, some (.vStr "fail")⟩ := rfl

/-- Claim C9 (amended): if, after a block of handlers that all resolved
with `undefined`, a handler throws, then no handler registered after it is
invoked and no Response envelope is ever produced for the request; every
envelope that is sent is an Error envelope, and when the thrown value is
not an object no envelope is sent at all (the catch block's own
`TypeError` escapes instead). -/
theorem thrown_handler_stops_dispatch :
    ∀ (reqId : String) (payload : JSVal) (pre rest : List ReqHandler)
      (h : ReqHandler) (e : JSVal),
      (∀ g ∈ pre, g payload = .ret .vUndefined) →
      h payload = .thrown e →
      (handleMessage (pre ++ h :: rest) ⟨reqId, payload⟩).invoked = pre.length + 1 ∧
      (∀ env ∈ (handleMessage (pre ++ h :: rest) ⟨reqId, payload⟩).sent,
          ∃ rid d, env = Envelope.err rid d) ∧
      (e.isObject = false →
        handleMessage (pre ++ h :: rest) ⟨reqId, payload⟩ =
          ⟨[], pre.length + 1, some e⟩) := by
  intro reqId payload pre rest h e hpre hh
  have hbase := runHandlers_thrown_cons reqId payload h rest e hh
  have hfull : handleMessage (pre ++ h :: rest) ⟨reqId, payload⟩ =
      ⟨(runHandlers reqId payload (h :: rest)).sent,
       pre.length + (runHandlers reqId payload (h :: rest)).invoked,
       (runHandlers reqId payload (h :: rest)).escaped⟩ :=
    runHandlers_append_undefined reqId payload pre hpre (h :: rest)
  rw [hfull, hbase]
  cases e with
  | vObj fields =>
    rcases hb : fields.any (fun f => f.1 == "message") with _ | _ <;>
      simp [jsIn, hb, JSVal.isObject]
  | vNull => simp [jsIn, JSVal.isObject]
  | vUndefined => simp [jsIn, JSVal.isObject]
  | vBool b => simp [jsIn, JSVal.isObject]
  | vNum n => simp [jsIn, JSVal.isObject]
  | vStr s => simp [jsIn, JSVal.isObject]

/-- Witness for the amended claim C9 at a concrete chain: one
`undefined`-resolving handler, then a handler throwing the primitive
number 7, then a would-be answering handler — the third handler is never
invoked and nothing is sent. -/
theorem thrown_handler_stops_dispatch_witness :
    (handleMessage
        [fun _ => .ret .vUndefined, fun _ => .thrown (.vNum 7),
         fun _ => .ret (.vStr "late")] ⟨"r9", .vNull⟩).invoked = 2 ∧
    handleMessage
        [fun _ => .ret .vUndefined, fun _ => .thrown (.vNum 7),
         fun _ => .ret (.vStr "late")] ⟨"r9", .vNull⟩ =
      ⟨[], 2, some (.vNum 7)⟩ :=
  have h := thrown_handler_stops_dispatch "r9" .vNull [fun _ => .ret .vUndefined]
    [fun _ => .ret (.vStr "late")] (fun _ => .thrown (.vNum 7)) (.vNum 7)
    (by intro g hg; simp at hg; subst hg; rfl) rfl
  ⟨h.1, h.2.2 rfl⟩

/-- Claim C10: `getAll` reads back the empty list when nothing is stored
under the pair's pending-operations key, and in every case it returns the
stored list itself — a genuine list, never an absent value. -/
theorem getAll_total_with_empty_default :
    ∀ (store : PndStore) (accPkh netId : String),
      (store (getKey accPkh netId) = none → getAll accPkh netId store = []) ∧
      ∀ ops, store (getKey accPkh netId) = some ops → getAll accPkh netId store = ops := by
  intro store accPkh netId
  refine ⟨fun h => ?_, fun ops h => ?_⟩ <;> simp [getAll, h]

/-- Witness for claim C10 at the concrete empty store. -/
theorem getAll_total_with_empty_default_witness :
    getAll "tz1aaa" "carthagenet" (fun _ => none) = [] :=
  (getAll_total_with_empty_default (fun _ => none) "tz1aaa" "carthagenet").1 rfl

